import Mathlib

/-!
Verification of the ISP helpdesk ticketing backend's ticket lifecycle,
assignment, comment, attachment and statistics handlers.

The relational store is modelled as lists of rows (`DB`); `serial` primary
keys are modelled with explicit `next…Id` counters; timestamps are `Nat`
values and each handler receives the current time `now` explicitly (the
handlers call `new Date()` once per request).  A drizzle
`select().where(eq(col, v))` followed by a `length === 0` check and a
`rows[0]` projection is modelled as `.filter … |>.head?`; an `update …
.set(vals).where(eq(id, v))` is modelled as a `List.map` that rewrites the
rows whose id matches; an `insert … returning` appends a row built from the
input and the counter.  The SQL `innerJoin` of comments with users (which
only projects comment columns in the handler) is modelled as a filter
requiring the authoring user to exist.  `path.resolve` is modelled as the
identity on path strings, and the filesystem as the list of existing paths;
`fs.access`/`fs.unlink` with the surrounding swallow-all `catch` amount to
removing the path when present and doing nothing otherwise.

Each handler returns its result together with the post-state of the store,
so that "an error leaves the store unchanged" is a real statement about the
function.  Error constructors are in bijection with the handlers' `throw`
sites: `agentNotFoundOrNotAgent` is the single combined error thrown when
the query `id = agentId AND role = 'agent'` comes back empty ("Agent with id
… not found or is not an agent"); the error taxonomy of the specification
reads it as `NotFoundError` when no such user exists and as
`InvalidRoleError` when the user exists with another role.
-/

deriving instance DecidableEq for Except

inductive UserRole where
  | customer
  | agent
  | admin
  deriving DecidableEq

inductive TicketCategory where
  | network_outage
  | billing_issue
  | technical_support
  | service_upgrade
  | rfo
  deriving DecidableEq

inductive TicketPriority where
  | low
  | medium
  | high
  | urgent
  deriving DecidableEq

inductive TicketStatus where
  | «open»
  | in_progress
  | on_hold
  | resolved
  | closed
  deriving DecidableEq

inductive OutageType where
  | planned
  | unplanned
  deriving DecidableEq

/-- The structured JSONB outage-detail record (`rfoDetailsSchema`): every
field is optional. -/
structure RfoDetails where
  outage_type : Option OutageType
  affected_areas : Option (List String)
  estimated_duration : Option String
  services_affected : Option (List String)
  root_cause : Option String
  resolution_steps : Option String
  deriving DecidableEq

structure User where
  id : Nat
  name : String
  email : String
  password_hash : String
  role : UserRole
  created_at : Nat
  updated_at : Nat
  deriving DecidableEq

structure Ticket where
  id : Nat
  subject : String
  description : String
  category : TicketCategory
  priority : TicketPriority
  status : TicketStatus
  customer_id : Nat
  assigned_agent_id : Option Nat
  rfo_details : Option RfoDetails
  created_at : Nat
  updated_at : Nat
  resolved_at : Option Nat
  deriving DecidableEq

structure Comment where
  id : Nat
  ticket_id : Nat
  user_id : Nat
  content : String
  is_internal : Bool
  created_at : Nat
  deriving DecidableEq

structure Attachment where
  id : Nat
  ticket_id : Nat
  filename : String
  file_path : String
  file_size : Nat
  mime_type : String
  uploaded_by : Nat
  created_at : Nat
  deriving DecidableEq

/-- The entity store: one list of rows per table, plus the `serial`
sequences for the tables this development inserts into. -/
structure DB where
  users : List User
  tickets : List Ticket
  comments : List Comment
  attachments : List Attachment
  nextTicketId : Nat
  nextCommentId : Nat
  deriving DecidableEq

/-- One constructor per `throw` site of the four fallible handlers. -/
inductive HandlerError where
  | ticketNotFound (id : Nat)
  | userNotFound (id : Nat)
  | customerNotFound (id : Nat)
  | notACustomer (id : Nat)
  | agentNotFoundOrNotAgent (id : Nat)
  deriving DecidableEq

/-- `db.select().from(usersTable).where(eq(usersTable.id, id))` followed by
taking `rows[0]` (with the emptiness check reflected in the `Option`). -/
def findUser (db : DB) (id : Nat) : Option User :=
  (db.users.filter (fun u => u.id = id)).head?

/-- `db.select().from(ticketsTable).where(eq(ticketsTable.id, id))`, first row. -/
def findTicket (db : DB) (id : Nat) : Option Ticket :=
  (db.tickets.filter (fun t => t.id = id)).head?

/-- The combined agent query `and(eq(users.id, id), eq(users.role, 'agent'))`,
first row. -/
def findAgent (db : DB) (id : Nat) : Option User :=
  (db.users.filter (fun u => u.id = id ∧ u.role = UserRole.agent)).head?

/-- `db.select().from(attachmentsTable).where(eq(attachmentsTable.id, id))`,
first row. -/
def findAttachment (db : DB) (id : Nat) : Option Attachment :=
  (db.attachments.filter (fun a => a.id = id)).head?

/-- `createTicketInputSchema`: `rfo_details` is optional (outer `Option`)
and nullable (inner `Option`). -/
structure CreateTicketInput where
  subject : String
  description : String
  category : TicketCategory
  priority : TicketPriority
  customer_id : Nat
  rfo_details : Option (Option RfoDetails)

/-- Handler `createTicket` (src/server/src/handlers/create_ticket.ts):
looks the customer up, rejects a missing id and a non-customer role, then
inserts a row with status forced to `open`, no agent, no resolution time,
and `input.rfo_details || null` as the outage record (`Option.join`
collapses both "absent" and "explicit null" to `none`, exactly as `|| null`
does, the record object being truthy). -/
def createTicket (db : DB) (now : Nat) (input : CreateTicketInput) :
    Except HandlerError Ticket × DB :=
  match findUser db input.customer_id with
  | none => (Except.error (HandlerError.customerNotFound input.customer_id), db)
  | some customer =>
    if customer.role ≠ UserRole.customer then
      (Except.error (HandlerError.notACustomer input.customer_id), db)
    else
      let t : Ticket :=
        { id := db.nextTicketId
          subject := input.subject
          description := input.description
          category := input.category
          priority := input.priority
          status := TicketStatus.«open»
          customer_id := input.customer_id
          assigned_agent_id := none
          rfo_details := input.rfo_details.join
          created_at := now
          updated_at := now
          resolved_at := none }
      (Except.ok t,
       { db with tickets := db.tickets ++ [t], nextTicketId := db.nextTicketId + 1 })

/-- `updateTicketInputSchema`: every mutable field is optional;
`assigned_agent_id` and `rfo_details` are additionally nullable. -/
structure UpdateTicketInput where
  id : Nat
  subject : Option String
  description : Option String
  category : Option TicketCategory
  priority : Option TicketPriority
  status : Option TicketStatus
  assigned_agent_id : Option (Option Nat)
  rfo_details : Option (Option RfoDetails)

/-- The `updateValues` object of `updateTicket` applied to a row: every
supplied field overwrites, every omitted field is left alone, `updated_at`
is always written, and `resolved_at` is written (to the current time)
exactly when the supplied status is `resolved`. -/
def applyTicketUpdate (input : UpdateTicketInput) (now : Nat) (t : Ticket) : Ticket :=
  { t with
    subject := input.subject.getD t.subject
    description := input.description.getD t.description
    category := input.category.getD t.category
    priority := input.priority.getD t.priority
    status := input.status.getD t.status
    assigned_agent_id := input.assigned_agent_id.getD t.assigned_agent_id
    rfo_details := input.rfo_details.getD t.rfo_details
    updated_at := now
    resolved_at :=
      if input.status = some TicketStatus.resolved then some now else t.resolved_at }

/-- The agent validation of `updateTicket`: run only when
`assigned_agent_id` is provided and non-null, using the combined
id-and-role query. -/
def agentCheck (db : DB) (assigned : Option (Option Nat)) : Option HandlerError :=
  match assigned with
  | some (some aid) =>
    if (findAgent db aid).isSome then none
    else some (HandlerError.agentNotFoundOrNotAgent aid)
  | _ => none

/-- Handler `updateTicket` (src/server/src/handlers/update_ticket.ts):
existence check on the ticket, agent validation when an agent id is
supplied non-null, then one `update … set(updateValues) … returning`; the
returned row is the updated first row matching the id. -/
def updateTicket (db : DB) (now : Nat) (input : UpdateTicketInput) :
    Except HandlerError Ticket × DB :=
  match findTicket db input.id with
  | none => (Except.error (HandlerError.ticketNotFound input.id), db)
  | some existing =>
    match agentCheck db input.assigned_agent_id with
    | some e => (Except.error e, db)
    | none =>
      (Except.ok (applyTicketUpdate input now existing),
       { db with
           tickets := db.tickets.map
             (fun t => if t.id = input.id then applyTicketUpdate input now t else t) })

/-- Handler `assignTicket` (handlers/assign_ticket): combined agent query
first, then ticket lookup; status advances to `in_progress` only from
`open`; the agent, the possibly advanced status and the refreshed
`updated_at` are written back. -/
def assignTicket (db : DB) (now : Nat) (ticketId agentId : Nat) :
    Except HandlerError Ticket × DB :=
  match findAgent db agentId with
  | none => (Except.error (HandlerError.agentNotFoundOrNotAgent agentId), db)
  | some _ =>
    match findTicket db ticketId with
    | none => (Except.error (HandlerError.ticketNotFound ticketId), db)
    | some currentTicket =>
      let newStatus :=
        if currentTicket.status = TicketStatus.«open» then TicketStatus.in_progress
        else currentTicket.status
      let upd (t : Ticket) : Ticket :=
        { t with
            assigned_agent_id := some agentId
            status := newStatus
            updated_at := now }
      (Except.ok (upd currentTicket),
       { db with
           tickets := db.tickets.map (fun t => if t.id = ticketId then upd t else t) })

/-- `createCommentInputSchema` after validation: `is_internal` has its
default applied, so it is a plain boolean here. -/
structure CreateCommentInput where
  ticket_id : Nat
  user_id : Nat
  content : String
  is_internal : Bool

/-- Handler `createComment` (handlers/create_comment): ticket lookup, user
lookup, insert of the comment row, then a second write refreshing the
parent ticket's `updated_at`. -/
def createComment (db : DB) (now : Nat) (input : CreateCommentInput) :
    Except HandlerError Comment × DB :=
  match findTicket db input.ticket_id with
  | none => (Except.error (HandlerError.ticketNotFound input.ticket_id), db)
  | some _ =>
    match findUser db input.user_id with
    | none => (Except.error (HandlerError.userNotFound input.user_id), db)
    | some _ =>
      let c : Comment :=
        { id := db.nextCommentId
          ticket_id := input.ticket_id
          user_id := input.user_id
          content := input.content
          is_internal := input.is_internal
          created_at := now }
      (Except.ok c,
       { db with
           comments := db.comments ++ [c]
           nextCommentId := db.nextCommentId + 1
           tickets := db.tickets.map
             (fun t => if t.id = input.ticket_id then { t with updated_at := now } else t) })

/-- The `ORDER BY created_at ASC` relation on comment rows. -/
def commentOrder (a b : Comment) : Prop :=
  a.created_at ≤ b.created_at

instance : DecidableRel commentOrder :=
  fun a b => inferInstanceAs (Decidable (a.created_at ≤ b.created_at))

instance : IsTotal Comment commentOrder :=
  ⟨fun a b => Nat.le_total a.created_at b.created_at⟩

instance : IsTrans Comment commentOrder :=
  ⟨fun _ _ _ h h' => Nat.le_trans h h'⟩

/-- Handler `getTicketComments` (handlers/get_ticket_comments.ts): the
conditions array (`ticket_id` match, plus `is_internal = false` unless
`includeInternal`), the inner join with the users table (a comment row
survives the join exactly when its author exists), and the ascending
order by `created_at`. -/
def getTicketComments (db : DB) (ticketId : Nat) (includeInternal : Bool) :
    List Comment :=
  let rows := db.comments.filter
    (fun c => c.ticket_id = ticketId
      ∧ (includeInternal = true ∨ c.is_internal = false)
      ∧ ∃ u ∈ db.users, u.id = c.user_id)
  List.insertionSort commentOrder rows

/-- The `TicketStats` result shape; the two `Record<string, number>`
objects are modelled as association lists in key-insertion order. -/
structure TicketStats where
  total : Nat
  «open» : Nat
  in_progress : Nat
  on_hold : Nat
  resolved : Nat
  closed : Nat
  by_category : List (TicketCategory × Nat)
  by_priority : List (TicketPriority × Nat)
  deriving DecidableEq

/-- `m[k] = (m[k] || 0) + 1` on a JS object: increment an existing key in
place, or append the key with count 1. -/
def bumpCount {κ : Type} [DecidableEq κ] (m : List (κ × Nat)) (k : κ) :
    List (κ × Nat) :=
  match m with
  | [] => [(k, 1)]
  | (k', v) :: rest =>
    if k' = k then (k', v + 1) :: rest else (k', v) :: bumpCount rest k

/-- The loop body of `getTicketStats`: bump the status counter selected by
the `switch`, then the category and priority maps. -/
def statsStep (acc : TicketStats) (t : Ticket) : TicketStats :=
  let acc1 :=
    match t.status with
    | TicketStatus.«open» => { acc with «open» := acc.«open» + 1 }
    | TicketStatus.in_progress => { acc with in_progress := acc.in_progress + 1 }
    | TicketStatus.on_hold => { acc with on_hold := acc.on_hold + 1 }
    | TicketStatus.resolved => { acc with resolved := acc.resolved + 1 }
    | TicketStatus.closed => { acc with closed := acc.closed + 1 }
  { acc1 with
      by_category := bumpCount acc1.by_category t.category
      by_priority := bumpCount acc1.by_priority t.priority }

/-- Handler `getTicketStats` (handlers/get_ticket_stats): fetch all tickets,
or, when an agent id is given, the tickets whose `assigned_agent_id` equals
it (SQL `=` never matches a NULL agent), start from `total := rows.length`
and zero counters and empty maps, and run the counting loop. -/
def getTicketStats (db : DB) (agentId : Option Nat) : TicketStats :=
  let tickets :=
    match agentId with
    | some aid => db.tickets.filter (fun (t : Ticket) => t.assigned_agent_id = some aid)
    | none => db.tickets
  tickets.foldl statsStep
    { total := tickets.length
      «open» := 0
      in_progress := 0
      on_hold := 0
      resolved := 0
      closed := 0
      by_category := []
      by_priority := [] }

/-- Handler `deleteAttachment` (handlers/delete_attachment): select by id
(`false` when empty), delete the row (`returning`, with the source's
defensive emptiness check), then best-effort file removal — only attempted
for a non-empty, non-whitespace path, and any failure (such as a missing
file) is swallowed, never undoing the row deletion or changing the result.
The filesystem is the list of existing paths. -/
def deleteAttachment (db : DB) (fs : List String) (attachmentId : Nat) :
    Bool × DB × List String :=
  match (db.attachments.filter (fun a => a.id = attachmentId)).head? with
  | none => (false, db, fs)
  | some attachment =>
    let deleteResult := db.attachments.filter (fun a => a.id = attachmentId)
    let remaining := db.attachments.filter (fun a => ¬ a.id = attachmentId)
    if deleteResult = [] then (false, { db with attachments := remaining }, fs)
    else
      let fs' :=
        if attachment.file_path ≠ "" ∧ attachment.file_path.trim ≠ "" then
          fs.filter (fun p => p ≠ attachment.file_path)
        else fs
      (true, { db with attachments := remaining }, fs')

/-! Concrete fixtures used to evaluate the handlers on closed inputs. -/

def sampleCustomer : User :=
  ⟨1, "Cara", "cara@example.com", "h1", UserRole.customer, 0, 0⟩

def sampleAgent : User :=
  ⟨2, "Ann", "ann@example.com", "h2", UserRole.agent, 0, 0⟩

def sampleTicket : Ticket :=
  ⟨10, "Network down", "No link", TicketCategory.network_outage,
   TicketPriority.high, TicketStatus.«open», 1, none, none, 0, 0, none⟩

def sampleComment : Comment :=
  ⟨1, 10, 2, "looking into it", true, 4⟩

def sampleComment2 : Comment :=
  ⟨2, 10, 1, "thanks", false, 2⟩

def sampleAttachment : Attachment :=
  ⟨3, 10, "log.txt", "", 12, "text/plain", 2, 1⟩

def sampleDB : DB :=
  ⟨[sampleCustomer, sampleAgent], [sampleTicket],
   [sampleComment, sampleComment2], [sampleAttachment], 11, 3⟩

def emptyDB : DB :=
  ⟨[], [], [], [], 1, 1⟩

/-- An update input that supplies only `status := resolved`. -/
def resolveInput : UpdateTicketInput :=
  ⟨10, none, none, none, none, some TicketStatus.resolved, none, none⟩

/-- An update input that supplies only a new priority. -/
def priorityInput : UpdateTicketInput :=
  ⟨10, none, none, none, some TicketPriority.low, none, none, none⟩

/-- An update input that supplies no optional field at all. -/
def emptyUpdateInput : UpdateTicketInput :=
  ⟨10, none, none, none, none, none, none, none⟩

/-! General lemmas about first-row lookups. -/

theorem exists_head?_of_mem {α : Type} {l : List α} {a : α} (h : a ∈ l) :
    ∃ w, l.head? = some w := by
  cases l with
  | nil => cases h
  | cons hd tl => exact ⟨hd, rfl⟩

theorem mem_of_head?_eq_some {α : Type} {l : List α} {a : α} (h : l.head? = some a) :
    a ∈ l := by
  cases l with
  | nil => cases h
  | cons hd tl =>
    cases h
    exact List.mem_cons_self _ _

theorem findUser_eq_none_iff (db : DB) (i : Nat) :
    findUser db i = none ↔ ∀ u ∈ db.users, u.id ≠ i := by
  simp [findUser, List.head?_eq_none_iff, List.filter_eq_nil_iff]

theorem findTicket_eq_none_iff (db : DB) (i : Nat) :
    findTicket db i = none ↔ ∀ t ∈ db.tickets, t.id ≠ i := by
  simp [findTicket, List.head?_eq_none_iff, List.filter_eq_nil_iff]

theorem findUser_some_spec (db : DB) (i : Nat) (u : User)
    (h : findUser db i = some u) : u ∈ db.users ∧ u.id = i := by
  have := mem_of_head?_eq_some h
  simpa using List.mem_filter.mp this

theorem findTicket_some_spec (db : DB) (i : Nat) (t : Ticket)
    (h : findTicket db i = some t) : t ∈ db.tickets ∧ t.id = i := by
  have := mem_of_head?_eq_some h
  simpa using List.mem_filter.mp this

theorem findUser_exists_of_mem (db : DB) (i : Nat) (u : User)
    (hu : u ∈ db.users) (hid : u.id = i) : ∃ w, findUser db i = some w :=
  exists_head?_of_mem (List.mem_filter.mpr ⟨hu, by simpa using hid⟩)

theorem findTicket_exists_of_mem (db : DB) (i : Nat) (t : Ticket)
    (ht : t ∈ db.tickets) (hid : t.id = i) : ∃ w, findTicket db i = some w :=
  exists_head?_of_mem (List.mem_filter.mpr ⟨ht, by simpa using hid⟩)

theorem findAgent_exists_of_mem (db : DB) (i : Nat) (u : User)
    (hu : u ∈ db.users) (hid : u.id = i) (hrole : u.role = UserRole.agent) :
    ∃ w, findAgent db i = some w :=
  exists_head?_of_mem (List.mem_filter.mpr ⟨hu, by simp [hid, hrole]⟩)

/-- With unique user ids, the first user found under an id is the only one. -/
theorem findUser_eq_of_nodup (db : DB) (i : Nat) (u : User)
    (hnd : (db.users.map User.id).Nodup) (hu : u ∈ db.users) (hid : u.id = i) :
    findUser db i = some u := by
  obtain ⟨w, hw⟩ := findUser_exists_of_mem db i u hu hid
  obtain ⟨hwmem, hwid⟩ := findUser_some_spec db i w hw
  have : w = u := List.inj_on_of_nodup_map hnd hwmem hu (by rw [hwid, hid])
  rw [hw, this]

/-- With unique user ids, a user holding the queried id but not the agent
role makes the combined agent query come back empty. -/
theorem findAgent_eq_none_of_role (db : DB) (i : Nat) (u : User)
    (hnd : (db.users.map User.id).Nodup) (hu : u ∈ db.users) (hid : u.id = i)
    (hrole : u.role ≠ UserRole.agent) : findAgent db i = none := by
  rw [findAgent, List.head?_eq_none_iff, List.filter_eq_nil_iff]
  intro v hv
  simp only [decide_eq_true_eq, not_and]
  intro hvid hvrole
  have : v = u := List.inj_on_of_nodup_map hnd hv hu (by rw [hvid, hid])
  exact hrole (this ▸ hvrole)

/-- C4: for every `createTicket` input whose `customer_id` resolves to a
user with role `customer`, the returned and persisted ticket has status
`open`, no assigned agent and no resolution timestamp, and its outage
record is exactly the supplied one (`none` whenever it was absent or an
explicit null, regardless of the category). -/
theorem createTicket_new_ticket_C4 (db : DB) (now : Nat) (input : CreateTicketInput)
    (u : User) (hfind : findUser db input.customer_id = some u)
    (hrole : u.role = UserRole.customer) :
    ∃ t db2, createTicket db now input = (Except.ok t, db2) ∧
      t.status = TicketStatus.«open» ∧
      t.assigned_agent_id = none ∧
      t.resolved_at = none ∧
      t.rfo_details = input.rfo_details.join ∧
      (input.rfo_details = none → t.rfo_details = none) ∧
      (∀ r, input.rfo_details = some (some r) → t.rfo_details = some r) ∧
      t ∈ db2.tickets := by
  simp only [createTicket, hfind]
  rw [if_neg (by simp [hrole])]
  refine ⟨_, _, rfl, rfl, rfl, rfl, rfl, ?_, ?_, ?_⟩
  · intro h
    simp [h]
  · intro r h
    simp [h]
  · simp

def rfoSample : RfoDetails :=
  ⟨some OutageType.planned, none, none, none, none, none⟩

def sampleCreateInput : CreateTicketInput :=
  ⟨"Outage", "fiber cut", TicketCategory.rfo, TicketPriority.urgent, 1,
   some (some rfoSample)⟩

theorem createTicket_new_ticket_C4_witness :
    ((createTicket sampleDB 5 sampleCreateInput).1.map Ticket.status
        = Except.ok TicketStatus.«open»)
      ∧ ((createTicket sampleDB 5 sampleCreateInput).1.map Ticket.rfo_details
        = Except.ok (some rfoSample)) := by
  obtain ⟨t, db2, h, hst, _, _, hrfo, _⟩ :=
    createTicket_new_ticket_C4 sampleDB 5 sampleCreateInput sampleCustomer
      (by decide) (by decide)
  have h1 : (createTicket sampleDB 5 sampleCreateInput).1 = Except.ok t :=
    congrArg Prod.fst h
  rw [h1]
  refine ⟨by simp [Except.map, hst], ?_⟩
  simp only [Except.map, hrfo]
  decide

/-- C5: `createTicket` rejects an unresolvable `customer_id` with the
not-found error and an existing non-customer with the wrong-role error, and
in both cases leaves the store untouched, creating no ticket. -/
theorem createTicket_errors_C5 (db : DB) (now : Nat) (input : CreateTicketInput)
    (hnd : (db.users.map User.id).Nodup) :
    ((∀ u ∈ db.users, u.id ≠ input.customer_id) →
      createTicket db now input =
        (Except.error (HandlerError.customerNotFound input.customer_id), db)) ∧
    (∀ u ∈ db.users, u.id = input.customer_id → u.role ≠ UserRole.customer →
      createTicket db now input =
        (Except.error (HandlerError.notACustomer input.customer_id), db)) := by
  constructor
  · intro h
    rw [createTicket, (findUser_eq_none_iff db input.customer_id).mpr h]
  · intro u hu hid hrole
    simp only [createTicket, findUser_eq_of_nodup db input.customer_id u hnd hu hid]
    rw [if_pos hrole]

def missingCustomerInput : CreateTicketInput :=
  ⟨"s", "d", TicketCategory.billing_issue, TicketPriority.low, 9, none⟩

def agentCustomerInput : CreateTicketInput :=
  ⟨"s", "d", TicketCategory.billing_issue, TicketPriority.low, 2, none⟩

theorem createTicket_errors_C5_witness :
    createTicket sampleDB 5 missingCustomerInput =
      (Except.error (HandlerError.customerNotFound 9), sampleDB) ∧
    createTicket sampleDB 5 agentCustomerInput =
      (Except.error (HandlerError.notACustomer 2), sampleDB) :=
  ⟨(createTicket_errors_C5 sampleDB 5 missingCustomerInput (by decide)).1 (by decide),
   (createTicket_errors_C5 sampleDB 5 agentCustomerInput (by decide)).2 sampleAgent
     (by decide) (by decide) (by decide)⟩

/-- C10: whenever `createTicket`, `updateTicket`, `assignTicket` or
`createComment` fails with a typed error, the store is returned unchanged:
every existence and role check precedes the single write. -/
theorem error_leaves_store_C10 :
    (∀ db now input e db2,
      createTicket db now input = (Except.error e, db2) → db2 = db) ∧
    (∀ db now input e db2,
      updateTicket db now input = (Except.error e, db2) → db2 = db) ∧
    (∀ db now ticketId agentId e db2,
      assignTicket db now ticketId agentId = (Except.error e, db2) → db2 = db) ∧
    (∀ db now input e db2,
      createComment db now input = (Except.error e, db2) → db2 = db) := by
  refine ⟨?_, ?_, ?_, ?_⟩
  · intro db now input e db2 h
    rw [createTicket] at h
    split at h
    · injection h with h1 h2
      exact h2.symm
    · split at h
      · injection h with h1 h2
        exact h2.symm
      · injection h with h1 h2
        exact Except.noConfusion h1
  · intro db now input e db2 h
    rw [updateTicket] at h
    split at h
    · injection h with h1 h2
      exact h2.symm
    · split at h
      · injection h with h1 h2
        exact h2.symm
      · injection h with h1 h2
        exact Except.noConfusion h1
  · intro db now ticketId agentId e db2 h
    rw [assignTicket] at h
    split at h
    · injection h with h1 h2
      exact h2.symm
    · split at h
      · injection h with h1 h2
        exact h2.symm
      · injection h with h1 h2
        exact Except.noConfusion h1
  · intro db now input e db2 h
    rw [createComment] at h
    split at h
    · injection h with h1 h2
      exact h2.symm
    · split at h
      · injection h with h1 h2
        exact h2.symm
      · injection h with h1 h2
        exact Except.noConfusion h1

theorem error_leaves_store_C10_witness :
    (createTicket sampleDB 5 missingCustomerInput).2 = sampleDB :=
  error_leaves_store_C10.1 sampleDB 5 missingCustomerInput
    (HandlerError.customerNotFound 9) _ (by decide)

/-- C1: an update that supplies status `resolved` returns the ticket with
`resolved_at` set to the (non-null) update time; an update that does not
supply status `resolved` — including one that moves the status away from
`resolved` — leaves every stored ticket's `resolved_at` exactly as it was:
it is never cleared automatically. -/
theorem updateTicket_resolved_at_C1 (db : DB) (now : Nat) (input : UpdateTicketInput) :
    (∀ r db2, updateTicket db now input = (Except.ok r, db2) →
      input.status = some TicketStatus.resolved → r.resolved_at = some now) ∧
    (input.status ≠ some TicketStatus.resolved →
      ∀ i : Nat, ((updateTicket db now input).2.tickets[i]?).map Ticket.resolved_at
        = (db.tickets[i]?).map Ticket.resolved_at) := by
  constructor
  · intro r db2 h hst
    rw [updateTicket] at h
    split at h
    · injection h with h1 h2
      exact Except.noConfusion h1
    · split at h
      · injection h with h1 h2
        exact Except.noConfusion h1
      · injection h with h1 h2
        injection h1 with h3
        subst h3
        simp [applyTicketUpdate, hst]
  · intro hst i
    rw [updateTicket]
    split
    · rfl
    · split
      · rfl
      · simp only [List.getElem?_map]
        cases hx : db.tickets[i]? with
        | none => rfl
        | some t =>
          by_cases hid : t.id = input.id
          · simp [hid, applyTicketUpdate, hst]
          · simp [hid]

def resolvedSampleTicket : Ticket :=
  { sampleTicket with
      status := TicketStatus.resolved
      updated_at := 9
      resolved_at := some 9 }

def resolvedSampleDB : DB :=
  { sampleDB with tickets := [resolvedSampleTicket] }

theorem updateTicket_resolved_at_C1_witness :
    resolvedSampleTicket.resolved_at = some 9 ∧
    (((updateTicket sampleDB 9 priorityInput).2.tickets[0]?).map Ticket.resolved_at
      = (sampleDB.tickets[0]?).map Ticket.resolved_at) :=
  ⟨(updateTicket_resolved_at_C1 sampleDB 9 resolveInput).1 resolvedSampleTicket
      resolvedSampleDB (by decide) (by decide),
   (updateTicket_resolved_at_C1 sampleDB 9 priorityInput).2 (by decide) 0⟩

/-- C3: on a successful `updateTicket`, exactly the supplied fields take
their new values (`getD` reads "the supplied value if present, the prior
value otherwise"), every omitted field and every ticket with a different id
keeps its prior value, and `updated_at` is refreshed unconditionally — also
when no optional field is supplied. -/
theorem updateTicket_frame_C3 (db : DB) (now : Nat) (input : UpdateTicketInput)
    (r : Ticket) (db2 : DB) (h : updateTicket db now input = (Except.ok r, db2)) :
    r.updated_at = now ∧
    (∀ i : Nat, ∀ t, db.tickets[i]? = some t → t.id ≠ input.id →
      db2.tickets[i]? = some t) ∧
    (∀ i : Nat, ∀ t t2, db.tickets[i]? = some t → db2.tickets[i]? = some t2 →
      t.id = input.id →
      t2.subject = input.subject.getD t.subject ∧
      t2.description = input.description.getD t.description ∧
      t2.category = input.category.getD t.category ∧
      t2.priority = input.priority.getD t.priority ∧
      t2.status = input.status.getD t.status ∧
      t2.assigned_agent_id = input.assigned_agent_id.getD t.assigned_agent_id ∧
      t2.rfo_details = input.rfo_details.getD t.rfo_details ∧
      t2.updated_at = now ∧
      t2.id = t.id ∧ t2.customer_id = t.customer_id ∧ t2.created_at = t.created_at) := by
  rw [updateTicket] at h
  split at h
  · injection h with h1 h2
    exact Except.noConfusion h1
  · split at h
    · injection h with h1 h2
      exact Except.noConfusion h1
    · injection h with h1 h2
      injection h1 with h3
      subst h2
      subst h3
      refine ⟨rfl, ?_, ?_⟩
      · intro i t hx hne
        rw [List.getElem?_map, hx]
        simp [hne]
      · intro i t t2 hx hx2 hid
        rw [List.getElem?_map, hx] at hx2
        simp only [Option.map_some'] at hx2
        rw [if_pos hid] at hx2
        injection hx2 with h4
        subst h4
        exact ⟨rfl, rfl, rfl, rfl, rfl, rfl, rfl, rfl, rfl, rfl, rfl⟩

theorem updateTicket_frame_C3_witness :
    ({ sampleTicket with updated_at := 9 } : Ticket).updated_at = 9 ∧
    ({ sampleTicket with updated_at := 9 } : Ticket).subject = sampleTicket.subject := by
  have h : updateTicket sampleDB 9 emptyUpdateInput =
      (Except.ok { sampleTicket with updated_at := 9 },
       { sampleDB with tickets := [{ sampleTicket with updated_at := 9 }] }) := by decide
  obtain ⟨hu, -, hframe⟩ := updateTicket_frame_C3 sampleDB 9 emptyUpdateInput _ _ h
  obtain ⟨hs, -⟩ :=
    hframe 0 sampleTicket { sampleTicket with updated_at := 9 } (by decide) (by decide) rfl
  exact ⟨hu, hs⟩

/-- C2: assigning a ticket to an existing user with role `agent` sets
`assigned_agent_id`, advances the status to `in_progress` exactly when the
current status is `open` (leaving every other status unchanged), and
refreshes `updated_at`, both in the returned ticket and in the store;
assigning to a user whose role is not `agent` fails with the
invalid-role error and leaves the store unchanged. -/
theorem assignTicket_spec_C2 (db : DB) (now ticketId agentId : Nat)
    (hnd : (db.users.map User.id).Nodup) :
    (∀ u ∈ db.users, u.id = agentId → u.role = UserRole.agent →
      ∀ cur, findTicket db ticketId = some cur →
        assignTicket db now ticketId agentId =
          (Except.ok
            { cur with
                assigned_agent_id := some agentId
                status :=
                  if cur.status = TicketStatus.«open» then TicketStatus.in_progress
                  else cur.status
                updated_at := now },
           { db with
               tickets := db.tickets.map (fun t =>
                 if t.id = ticketId then
                   { t with
                       assigned_agent_id := some agentId
                       status :=
                         if cur.status = TicketStatus.«open» then TicketStatus.in_progress
                         else cur.status
                       updated_at := now }
                 else t) })) ∧
    (∀ u ∈ db.users, u.id = agentId → u.role ≠ UserRole.agent →
      assignTicket db now ticketId agentId =
        (Except.error (HandlerError.agentNotFoundOrNotAgent agentId), db)) := by
  constructor
  · intro u hu hid hrole cur hcur
    obtain ⟨w, hw⟩ := findAgent_exists_of_mem db agentId u hu hid hrole
    simp only [assignTicket, hw, hcur]
  · intro u hu hid hrole
    simp only [assignTicket, findAgent_eq_none_of_role db agentId u hnd hu hid hrole]

def assignedSampleTicket : Ticket :=
  { sampleTicket with
      assigned_agent_id := some 2
      status := TicketStatus.in_progress
      updated_at := 7 }

theorem assignTicket_spec_C2_witness :
    assignTicket sampleDB 7 10 2 =
      (Except.ok assignedSampleTicket,
       { sampleDB with tickets := [assignedSampleTicket] }) ∧
    assignTicket sampleDB 7 10 1 =
      (Except.error (HandlerError.agentNotFoundOrNotAgent 1), sampleDB) := by
  have h1 := (assignTicket_spec_C2 sampleDB 7 10 2 (by decide)).1 sampleAgent
    (by decide) rfl rfl sampleTicket (by decide)
  have h2 := (assignTicket_spec_C2 sampleDB 7 10 1 (by decide)).2 sampleCustomer
    (by decide) rfl (by decide)
  rw [h1, h2]
  exact ⟨by decide, rfl⟩

/-! Lemmas about the statistics aggregation loop. -/

theorem bumpCount_snd_sum {κ : Type} [DecidableEq κ] (m : List (κ × Nat)) (k : κ) :
    ((bumpCount m k).map Prod.snd).sum = (m.map Prod.snd).sum + 1 := by
  induction m with
  | nil => simp [bumpCount]
  | cons hd tl ih =>
    obtain ⟨k', v⟩ := hd
    by_cases hk : k' = k
    · simp [bumpCount, hk]
      omega
    · simp [bumpCount, hk, ih]
      omega

theorem bumpCount_fst_mem {κ : Type} [DecidableEq κ] (m : List (κ × Nat)) (k c : κ)
    (hc : c ∈ (bumpCount m k).map Prod.fst) : c = k ∨ c ∈ m.map Prod.fst := by
  induction m with
  | nil =>
    simp only [bumpCount, List.map_cons, List.map_nil] at hc
    exact Or.inl (by simpa using hc)
  | cons hd tl ih =>
    obtain ⟨k', v⟩ := hd
    by_cases hk : k' = k
    · simp only [bumpCount, if_pos hk, List.map_cons] at hc
      exact Or.inr (by rw [List.map_cons]; exact hc)
    · simp only [bumpCount, if_neg hk, List.map_cons] at hc
      rcases List.mem_cons.mp hc with h | h
      · exact Or.inr (by rw [List.map_cons]; exact List.mem_cons.mpr (Or.inl h))
      · rcases ih h with h' | h'
        · exact Or.inl h'
        · exact Or.inr (by rw [List.map_cons]; exact List.mem_cons.mpr (Or.inr h'))

theorem statsStep_total (acc : TicketStats) (t : Ticket) :
    (statsStep acc t).total = acc.total := by
  obtain ⟨_, _, _, _, _, st, _, _, _, _, _, _⟩ := t
  cases st <;> rfl

theorem statsStep_by_category (acc : TicketStats) (t : Ticket) :
    (statsStep acc t).by_category = bumpCount acc.by_category t.category := by
  obtain ⟨_, _, _, _, _, st, _, _, _, _, _, _⟩ := t
  cases st <;> rfl

theorem foldl_statsStep_total (l : List Ticket) (acc : TicketStats) :
    (l.foldl statsStep acc).total = acc.total := by
  induction l generalizing acc with
  | nil => rfl
  | cons hd tl ih => rw [List.foldl_cons, ih, statsStep_total]

theorem foldl_statsStep_cat_sum (l : List Ticket) (acc : TicketStats) :
    ((l.foldl statsStep acc).by_category.map Prod.snd).sum
      = (acc.by_category.map Prod.snd).sum + l.length := by
  induction l generalizing acc with
  | nil => simp
  | cons hd tl ih =>
    rw [List.foldl_cons, ih, statsStep_by_category, bumpCount_snd_sum]
    simp
    omega

theorem foldl_statsStep_cat_keys (l : List Ticket) (acc : TicketStats)
    (c : TicketCategory) (hc : c ∈ (l.foldl statsStep acc).by_category.map Prod.fst) :
    c ∈ acc.by_category.map Prod.fst ∨ ∃ t ∈ l, t.category = c := by
  induction l generalizing acc with
  | nil => exact Or.inl (by simpa using hc)
  | cons hd tl ih =>
    rw [List.foldl_cons] at hc
    rcases ih _ hc with h | h
    · rw [statsStep_by_category] at h
      rcases bumpCount_fst_mem _ _ _ h with h' | h'
      · exact Or.inr ⟨hd, List.mem_cons_self _ _, h'.symm⟩
      · exact Or.inl h'
    · obtain ⟨t, ht, hcat⟩ := h
      exact Or.inr ⟨t, List.mem_cons_of_mem _ ht, hcat⟩

/-- C6: `getTicketStats` over an empty store yields a zero total and empty
category/priority maps; unfiltered, the category counts sum to the total,
which is the number of stored tickets, and a category key is present only
when some ticket carries it; filtering by an agent id assigned to no ticket
(a nonexistent agent included) yields all-zero stats instead of an error. -/
theorem getTicketStats_spec_C6 (db : DB) :
    (db.tickets = [] → getTicketStats db none = ⟨0, 0, 0, 0, 0, 0, [], []⟩) ∧
    ((getTicketStats db none).total = db.tickets.length ∧
      ((getTicketStats db none).by_category.map Prod.snd).sum
        = (getTicketStats db none).total) ∧
    (∀ c, c ∈ (getTicketStats db none).by_category.map Prod.fst →
      ∃ t ∈ db.tickets, t.category = c) ∧
    (∀ aid : Nat, (∀ t ∈ db.tickets, t.assigned_agent_id ≠ some aid) →
      getTicketStats db (some aid) = ⟨0, 0, 0, 0, 0, 0, [], []⟩) := by
  refine ⟨?_, ⟨?_, ?_⟩, ?_, ?_⟩
  · intro h
    simp [getTicketStats, h]
  · rw [getTicketStats]
    exact foldl_statsStep_total _ _
  · rw [getTicketStats]
    rw [foldl_statsStep_cat_sum, foldl_statsStep_total]
    simp
  · intro c hc
    rw [getTicketStats] at hc
    rcases foldl_statsStep_cat_keys _ _ _ hc with h | h
    · simp at h
    · exact h
  · intro aid h
    have hfil : db.tickets.filter
        (fun (t : Ticket) => t.assigned_agent_id = some aid) = [] := by
      rw [List.filter_eq_nil_iff]
      intro t ht
      simpa using h t ht
    simp [getTicketStats, hfil]

theorem getTicketStats_spec_C6_witness :
    getTicketStats emptyDB none = ⟨0, 0, 0, 0, 0, 0, [], []⟩ ∧
    getTicketStats sampleDB (some 5) = ⟨0, 0, 0, 0, 0, 0, [], []⟩ :=
  ⟨(getTicketStats_spec_C6 emptyDB).1 rfl,
   (getTicketStats_spec_C6 sampleDB).2.2.2 5 (by decide)⟩

/-- C7: with the foreign-key integrity the schema enforces (every comment's
author exists), `getTicketComments` without the internal flag never returns
an internal comment, with the flag returns exactly the comments of the
ticket, and in both cases the result is ordered non-decreasing by creation
time. -/
theorem getTicketComments_spec_C7 (db : DB) (ticketId : Nat)
    (hfk : ∀ c ∈ db.comments, ∃ u ∈ db.users, u.id = c.user_id) :
    (∀ c ∈ getTicketComments db ticketId false, c.is_internal = false) ∧
    (∀ c, c ∈ getTicketComments db ticketId true ↔
      c ∈ db.comments ∧ c.ticket_id = ticketId) ∧
    (∀ b : Bool, List.Pairwise (fun a a2 => a.created_at ≤ a2.created_at)
      (getTicketComments db ticketId b)) := by
  refine ⟨?_, ?_, ?_⟩
  · intro c hc
    simp only [getTicketComments] at hc
    have hmem := (List.perm_insertionSort commentOrder _).mem_iff.mp hc
    have h2 := (List.mem_filter.mp hmem).2
    simp only [decide_eq_true_eq] at h2
    rcases h2.2.1 with h | h
    · exact absurd h (by simp)
    · exact h
  · intro c
    simp only [getTicketComments]
    rw [(List.perm_insertionSort commentOrder _).mem_iff, List.mem_filter]
    simp only [decide_eq_true_eq]
    constructor
    · rintro ⟨h1, h2, -, -⟩
      exact ⟨h1, h2⟩
    · rintro ⟨h1, h2⟩
      exact ⟨h1, h2, Or.inl trivial, hfk c h1⟩
  · intro b
    simp only [getTicketComments]
    exact List.sorted_insertionSort commentOrder _

theorem getTicketComments_spec_C7_witness :
    getTicketComments sampleDB 10 false = [sampleComment2] ∧
    getTicketComments sampleDB 10 true = [sampleComment2, sampleComment] ∧
    sampleComment2.is_internal = false :=
  ⟨by decide, by decide,
   (getTicketComments_spec_C7 sampleDB 10 (by decide)).1 sampleComment2 (by decide)⟩

/-- C8: `deleteAttachment` on an id naming no attachment returns `false`
and changes nothing; on an existing id it returns `true` and the row is no
longer retrievable — with no assumption on the stored file path (empty,
whitespace-only or missing-file paths included) or on the filesystem, since
a file-removal failure never reverses the row deletion or the result. -/
theorem deleteAttachment_spec_C8 (db : DB) (fs : List String) (attachmentId : Nat) :
    ((∀ a ∈ db.attachments, a.id ≠ attachmentId) →
      deleteAttachment db fs attachmentId = (false, db, fs)) ∧
    (∀ a ∈ db.attachments, a.id = attachmentId →
      (deleteAttachment db fs attachmentId).1 = true ∧
      findAttachment (deleteAttachment db fs attachmentId).2.1 attachmentId = none) := by
  constructor
  · intro h
    have hfil : db.attachments.filter (fun a => a.id = attachmentId) = [] := by
      rw [List.filter_eq_nil_iff]
      intro a ha
      simpa using h a ha
    simp only [deleteAttachment, hfil]
    rfl
  · intro a ha hid
    have hmem : a ∈ db.attachments.filter (fun a => a.id = attachmentId) :=
      List.mem_filter.mpr ⟨ha, by simpa using hid⟩
    obtain ⟨w, hw⟩ := exists_head?_of_mem hmem
    have hne : db.attachments.filter (fun a => a.id = attachmentId) ≠ [] := by
      intro h0
      rw [h0] at hw
      cases hw
    have hred :
        deleteAttachment db fs attachmentId =
          (true,
           { db with attachments := db.attachments.filter (fun a => ¬ a.id = attachmentId) },
           if w.file_path ≠ "" ∧ w.file_path.trim ≠ "" then
             fs.filter (fun p => p ≠ w.file_path)
           else fs) := by
      simp only [deleteAttachment, hw]
      rw [if_neg hne]
    rw [hred]
    refine ⟨rfl, ?_⟩
    rw [findAttachment, List.head?_eq_none_iff, List.filter_eq_nil_iff]
    intro x hx
    have := (List.mem_filter.mp hx).2
    simpa using this

theorem deleteAttachment_spec_C8_witness :
    deleteAttachment sampleDB ["f.txt"] 99 = (false, sampleDB, ["f.txt"]) ∧
    (deleteAttachment sampleDB ["f.txt"] 3).1 = true ∧
    findAttachment (deleteAttachment sampleDB ["f.txt"] 3).2.1 3 = none :=
  ⟨(deleteAttachment_spec_C8 sampleDB ["f.txt"] 99).1 (by decide),
   (deleteAttachment_spec_C8 sampleDB ["f.txt"] 3).2 sampleAttachment (by decide) rfl⟩

/-- C9: `createComment` fails with the not-found error of whichever of the
ticket and the user is missing, leaving the store unchanged; when both
exist it returns the inserted comment carrying the supplied `is_internal`
flag and content, appends it to the store, and refreshes the parent
ticket's `updated_at` while leaving every other ticket untouched. -/
theorem createComment_spec_C9 (db : DB) (now : Nat) (input : CreateCommentInput) :
    ((∀ t ∈ db.tickets, t.id ≠ input.ticket_id) →
      createComment db now input =
        (Except.error (HandlerError.ticketNotFound input.ticket_id), db)) ∧
    (∀ t ∈ db.tickets, t.id = input.ticket_id →
      (∀ u ∈ db.users, u.id ≠ input.user_id) →
      createComment db now input =
        (Except.error (HandlerError.userNotFound input.user_id), db)) ∧
    (∀ t ∈ db.tickets, t.id = input.ticket_id →
      ∀ u ∈ db.users, u.id = input.user_id →
      ∃ c db2, createComment db now input = (Except.ok c, db2) ∧
        c.ticket_id = input.ticket_id ∧
        c.user_id = input.user_id ∧
        c.content = input.content ∧
        c.is_internal = input.is_internal ∧
        c.created_at = now ∧
        c ∈ db2.comments ∧
        (∀ i : Nat, ∀ t0, db.tickets[i]? = some t0 → t0.id = input.ticket_id →
          db2.tickets[i]? = some { t0 with updated_at := now }) ∧
        (∀ i : Nat, ∀ t0, db.tickets[i]? = some t0 → t0.id ≠ input.ticket_id →
          db2.tickets[i]? = some t0)) := by
  refine ⟨?_, ?_, ?_⟩
  · intro h
    simp only [createComment, (findTicket_eq_none_iff db input.ticket_id).mpr h]
  · intro t ht hid h
    obtain ⟨w, hw⟩ := findTicket_exists_of_mem db input.ticket_id t ht hid
    simp only [createComment, hw, (findUser_eq_none_iff db input.user_id).mpr h]
  · intro t ht hid u hu huid
    obtain ⟨w, hw⟩ := findTicket_exists_of_mem db input.ticket_id t ht hid
    obtain ⟨wu, hwu⟩ := findUser_exists_of_mem db input.user_id u hu huid
    simp only [createComment, hw, hwu]
    refine ⟨_, _, rfl, rfl, rfl, rfl, rfl, rfl, ?_, ?_, ?_⟩
    · simp
    · intro i t0 hx hxid
      rw [List.getElem?_map, hx]
      simp [hxid]
    · intro i t0 hx hxid
      rw [List.getElem?_map, hx]
      simp [hxid]

def sampleNoteComment : Comment :=
  ⟨3, 10, 1, "note", true, 12⟩

theorem createComment_spec_C9_witness :
    createComment sampleDB 12 ⟨10, 1, "note", true⟩ =
      (Except.ok sampleNoteComment,
       { sampleDB with
           comments := sampleDB.comments ++ [sampleNoteComment]
           nextCommentId := 4
           tickets := [{ sampleTicket with updated_at := 12 }] }) ∧
    createComment sampleDB 12 ⟨10, 9, "note", true⟩ =
      (Except.error (HandlerError.userNotFound 9), sampleDB) :=
  ⟨by decide,
   (createComment_spec_C9 sampleDB 12 ⟨10, 9, "note", true⟩).2.1 sampleTicket
     (by decide) rfl (by decide)⟩
